import Mathlib

/-!
# taller1-ns3: the two simulation scripts as traces of framework calls

`src/main.cc` and `src/main2.cc` are two `main` functions that configure the
ns-3 simulator.  Each `main` is embedded as a function from its command-line
overrides to a `Run`: the ordered list of calls the script makes into the
framework (the trace) and the way the script ends.  Only the control flow
and the integer arithmetic of the scripts are interpreted; every framework
call is recorded as an `Action` carrying the arguments the script passes.

Values of C++ type `double` (`distance`, `interval`, `meanPacketsPerSecond`)
are not carried: they flow only into framework arguments, never into the
scripts' control flow.  `uint32_t` values are natural numbers, with the
wrap-around of the C++ operators made explicit.
-/

namespace Taller1

/-! ## `uint32_t` arithmetic -/

/-- The modulus of `uint32_t` arithmetic. -/
def UINT32 : Nat := 2 ^ 32

/-- C++ `a + b` on `uint32_t`. -/
def add32 (a b : Nat) : Nat := (a + b) % UINT32

/-- C++ `a * b` on `uint32_t`. -/
def mul32 (a b : Nat) : Nat := (a * b) % UINT32

/-- C++ `a - b` on `uint32_t`: the integer difference reduced modulo
`2 ^ 32` (wraps below zero). -/
def sub32 (a b : Nat) : Nat := (((a : Int) - (b : Int)) % (UINT32 : Int)).toNat

/-! ## Framework calls made by the scripts -/

/-- One call from a script into the framework, with the arguments the
script passes.  Node arguments are node indices.  Declarations of helper
objects and `NS_LOG_INFO` lines are not recorded. -/
inductive Action where
  /-- Call `LogComponentEnable (component, LOG_LEVEL_INFO)` -/
  | logComponentEnable (component : String)
  /-- Call `Config::SetDefault (name, value)` -/
  | setDefault (name value : String)
  /-- Call `cmd.AddValue (name, ...)` -/
  | addValue (name : String)
  /-- Call `cmd.Parse (argc, argv)` -/
  | parse
  /-- Call `std::cout << msg << std::endl` -/
  | cout (msg : String)
  /-- Call `NS_LOG_UNCOND ("Testing from node " << sourceNode << " to " << sinkNode ...)` -/
  | logTesting (sourceNode sinkNode : Nat)
  /-- A setter on a helper object (`SetType`, `SetRemoteStationManager`, ...),
  with the value it is given where the script passes one. -/
  | configure (helper setting value : String)
  /-- Call `container.Create (n)` -/
  | createNodes (container : String) (n : Nat)
  /-- Call `wifi.EnableLogComponents ()` -/
  | wifiEnableLogComponents
  /-- Call `wifi.Install (phy, mac, container)`: creates the net devices. -/
  | installWifi (container : String)
  /-- Call `internet.Install (container)` -/
  | installInternet (container : String)
  /-- Call `ipv4.SetBase (network, mask)` -/
  | setBase (network mask : String)
  /-- Call `ipv4.Assign (devices)` -/
  | assignAddresses (devices : String)
  /-- Call `ipAddrs.NewNetwork ()` -/
  | newNetwork
  /-- Call `mobility.PushReferenceMobilityModel (backbone.Get (i))` -/
  | pushReferenceMobilityModel (backboneIndex : Nat)
  /-- Call `mobility.Install (container)` -/
  | installMobility (container : String)
  /-- Call `PacketSinkHelper (factory, ...).Install (node)` -/
  | installPacketSink (factory : String) (node : Nat)
  /-- Call `onoff.Install (node)` -/
  | installOnOff (node : Nat)
  /-- Call `apps.Start (Seconds (s))` -/
  | appStart (seconds : Nat)
  /-- Call `onoff.SetAttribute ("PacketSize", UintegerValue (packetSize))` -/
  | setPacketSize (bytes : Nat)
  /-- Call `apps.Stop (Seconds (s))` -/
  | appStop (seconds : Nat)
  /-- Call `wifiPhy.EnableAsciiAll (ascii.CreateFileStream (file))` -/
  | enableAsciiAll (file : String)
  /-- Call `wifiPhy.EnablePcap (filePrefix, devices)` -/
  | enablePcap (filePrefix : String)
  /-- Call `olsr.PrintRoutingTableAllEvery (Seconds (s), stream on file)` -/
  | printRoutingTableAllEvery (seconds : Nat) (file : String)
  /-- Call `olsr.PrintNeighborCacheAllEvery (Seconds (s), stream on file)` -/
  | printNeighborCacheAllEvery (seconds : Nat) (file : String)
  /-- Call `MobilityHelper::EnableAsciiAll (ascii.CreateFileStream (file))` -/
  | mobilityEnableAsciiAll (file : String)
  /-- Call `flowHelper.InstallAll ()` -/
  | flowMonitorInstallAll
  /-- Call `AnimationInterface anim (file)` -/
  | animationInterface (file : String)
  /-- Call `anim.SetConstantPosition (c.Get (i), distance * col, distance * row)` -/
  | setConstantPosition (node col row : Nat)
  /-- Call `Config::Connect (".../CourseChange", MakeCallback (&CourseChangeCallback))` -/
  | connectCourseChange
  /-- Call `Simulator::Stop (Seconds (s))` -/
  | simulatorStop (seconds : Nat)
  /-- Call `Simulator::Run ()` -/
  | simulatorRun
  /-- Call `flowMonitor->SerializeToXmlFile (file, true, true)` -/
  | serializeToXmlFile (file : String)
  /-- Call `Simulator::Destroy ()` -/
  | simulatorDestroy
  deriving DecidableEq, Repr

/-- How a script ends. -/
inductive Outcome where
  /-- The control flow of `main` reaches its end (an explicit `return` or
  the closing brace) with this status; what happens inside the framework
  calls on the way is not interpreted. -/
  | returned (status : Nat)
  /-- The script calls `exit (status)`. -/
  | exited (status : Nat)
  /-- An `NS_ASSERT` written in the script fails and aborts the process. -/
  | assertFailed
  deriving DecidableEq, Repr

/-- Whether the script was stopped by one of its own explicit checks: a
call of `exit` or a failed `NS_ASSERT` written in the script. -/
def Outcome.stoppedByCheck : Outcome → Bool
  | .returned _ => false
  | .exited _ => true
  | .assertFailed => true

/-- The observable behaviour of one execution of a script. -/
structure Run where
  trace : List Action
  outcome : Outcome
  deriving DecidableEq, Repr

/-- The kinds of output file a script asks the framework to write. -/
inductive ArtifactKind where
  | asciiTrace
  | pcapCapture
  | routingTable
  | neighborCache
  | mobilityTrace
  | animation
  | flowStatistics
  deriving DecidableEq, Repr

/-- The output file (kind and file name or name stem) an action requests. -/
def Action.artifact : Action → Option (ArtifactKind × String)
  | .enableAsciiAll f => some (.asciiTrace, f)
  | .enablePcap f => some (.pcapCapture, f)
  | .printRoutingTableAllEvery _ f => some (.routingTable, f)
  | .printNeighborCacheAllEvery _ f => some (.neighborCache, f)
  | .mobilityEnableAsciiAll f => some (.mobilityTrace, f)
  | .animationInterface f => some (.animation, f)
  | .serializeToXmlFile f => some (.flowStatistics, f)
  | _ => none

/-- All output files requested during a run, in order. -/
def artifacts (t : List Action) : List (ArtifactKind × String) :=
  t.filterMap Action.artifact

/-- Whether an action creates nodes, net devices or applications. -/
def Action.creates : Action → Bool
  | .createNodes _ _ => true
  | .installWifi _ => true
  | .installPacketSink _ _ => true
  | .installOnOff _ => true
  | _ => false

/-- The number of nodes an action adds to the simulation. -/
def Action.nodeCount : Action → Nat
  | .createNodes _ n => n
  | _ => 0

/-- The total number of nodes created by a trace. -/
def nodesCreated : List Action → Nat
  | [] => 0
  | a :: t => a.nodeCount + nodesCreated t

/-- The nodes on which a packet sink is installed, in order. -/
def sinkNodes (t : List Action) : List Nat :=
  t.filterMap fun a => match a with
    | .installPacketSink _ n => some n
    | _ => none

/-- The nodes on which the on-off sender is installed, in order. -/
def sourceNodes (t : List Action) : List Nat :=
  t.filterMap fun a => match a with
    | .installOnOff n => some n
    | _ => none

/-! ## `src/main.cc` -/

/-- The command-line overrides `main.cc` registers with `cmd.AddValue`
(lines 142-151); `none` means the option is not given.  The `double`
options `distance` and `interval` are not carried. -/
structure Argv1 where
  phyMode : Option String := none
  packetSize : Option Nat := none
  numPackets : Option Nat := none
  verbose : Option Bool := none
  tracing : Option Bool := none
  numNodes : Option Nat := none
  sinkNode : Option Nat := none
  sourceNode : Option Nat := none
  deriving DecidableEq, Repr

/-- The local variables of `main` in `main.cc` (lines 128-138). -/
structure Locals1 where
  phyMode : String
  packetSize : Nat
  numPackets : Nat
  numNodes : Nat
  sinkNode : Nat
  sourceNode : Nat
  verbose : Bool
  tracing : Bool
  deriving DecidableEq, Repr

/-- The initial values of the locals of `main.cc` (lines 128-138). -/
def init1 : Locals1 where
  phyMode := "DsssRate1Mbps"
  packetSize := 1000
  numPackets := 1
  numNodes := 25
  sinkNode := 0
  sourceNode := 24
  verbose := false
  tracing := true

/-- The effect of `cmd.Parse` in `main.cc` (line 152): every registered
variable for which an option is given takes the given value. -/
def cmdParse1 (argv : Argv1) (l : Locals1) : Locals1 where
  phyMode := argv.phyMode.getD l.phyMode
  packetSize := argv.packetSize.getD l.packetSize
  numPackets := argv.numPackets.getD l.numPackets
  numNodes := argv.numNodes.getD l.numNodes
  sinkNode := argv.sinkNode.getD l.sinkNode
  sourceNode := argv.sourceNode.getD l.sourceNode
  verbose := argv.verbose.getD l.verbose
  tracing := argv.tracing.getD l.tracing

/-- The animation loop of `main.cc` (lines 275-279), with `remaining`
iterations left and loop variable `i`. -/
def positionLoop : (remaining : Nat) → (i : Nat) → List Action
  | 0, _ => []
  | k + 1, i => .setConstantPosition i (i % 5) (i / 5) :: positionLoop k (i + 1)

/-- The tracing block of `main.cc` (lines 250-264). -/
def tracingBlock (tracing : Bool) : List Action :=
  if tracing = true then
    [ .enableAsciiAll "taller1.tr",
      .enablePcap "taller1",
      .printRoutingTableAllEvery 2 "taller1.routes",
      .printNeighborCacheAllEvery 2 "taller1.neighbors",
      .mobilityEnableAsciiAll "taller1.mob" ]
  else []

/-- The function `main` of `src/main.cc`. -/
def main (argv : Argv1) : Run :=
  let l := cmdParse1 argv init1
  { trace :=
      -- lines 126-152
      [ .logComponentEnable "OnOffApplication",
        .addValue "phyMode", .addValue "distance", .addValue "packetSize",
        .addValue "numPackets", .addValue "interval", .addValue "verbose",
        .addValue "tracing", .addValue "numNodes", .addValue "sinkNode",
        .addValue "sourceNode",
        .parse,
        -- lines 159-163
        .setDefault "ns3::WifiRemoteStationManager::NonUnicastMode" l.phyMode,
        .createNodes "c" l.numNodes ]
      -- lines 167-170
      ++ (if l.verbose then [.wifiEnableLogComponents] else [])
      -- lines 172-191
      ++ [ .configure "wifiPhy" "RxGain" "-10",
           .configure "wifiPhy" "PcapDataLinkType" "DLT_IEEE802_11_RADIO",
           .configure "wifiChannel" "PropagationDelay" "ns3::ConstantSpeedPropagationDelayModel",
           .configure "wifiChannel" "PropagationLoss" "ns3::FriisPropagationLossModel",
           .configure "wifiPhy" "Channel" "",
           .configure "wifi" "Standard" "WIFI_STANDARD_80211b",
           .configure "wifi" "RemoteStationManager" l.phyMode,
           .configure "wifiMac" "Type" "ns3::AdhocWifiMac",
           .installWifi "c",
           -- lines 193-204
           .configure "pos" "TypeId" "ns3::RandomRectanglePositionAllocator",
           .configure "pos" "X" "ns3::UniformRandomVariable[Min=0.0|Max=500.0]",
           .configure "pos" "Y" "ns3::UniformRandomVariable[Min=0.0|Max=500.0]",
           .configure "mobility" "PositionAllocator" "posAlloc",
           .configure "mobility" "MobilityModel" "ns3::RandomWaypointMobilityModel",
           .installMobility "c",
           -- lines 207-221
           .configure "list" "Add" "staticRouting 0",
           .configure "list" "Add" "olsr 10",
           .configure "internet" "RoutingHelper" "list",
           .installInternet "c",
           .setBase "10.1.1.0" "255.255.255.0",
           .assignAddresses "devices",
           -- lines 226-233
           .configure "interPacketIntervalStream" "Mean" "1.0 / meanPacketsPerSecond",
           .configure "onoff" "OnTime" "ConstantRandomVariable",
           .configure "onoff" "OffTime" "ExponentialRandomVariable",
           .setPacketSize l.packetSize,
           .configure "onoff" "DataRate" "50Mbps",
           -- lines 235-241
           .installPacketSink "ns3::TcpSocketFactory" 1,
           .appStart 1,
           .appStop 10,
           -- lines 244-248
           .configure "onoff" "Remote" "0.0.0.0:80",
           .installOnOff l.sourceNode,
           .appStart 2,
           .appStop 10 ]
      -- lines 250-264
      ++ tracingBlock l.tracing
      -- lines 265-273
      ++ [ .flowMonitorInstallAll,
           .logTesting l.sourceNode l.sinkNode,
           .animationInterface "taller1.xml" ]
      -- lines 275-279
      ++ positionLoop l.numNodes 0
      -- lines 282-285
      ++ [ .simulatorStop 33,
           .simulatorRun,
           .serializeToXmlFile "third.xml",
           .simulatorDestroy ],
    -- line 287
    outcome := .returned 0 }

/-! ## `src/main2.cc` -/

/-- The command-line overrides `main2.cc` registers with `cmd.AddValue`
(lines 62-66); `none` means the option is not given. -/
structure Argv2 where
  backboneNodes : Option Nat := none
  infraNodes : Option Nat := none
  lanNodes : Option Nat := none
  stopTime : Option Nat := none
  useCourseChangeCallback : Option Bool := none
  deriving DecidableEq, Repr

/-- The local variables of `main` in `main2.cc` (lines 41-47). -/
structure Locals2 where
  backboneNodes : Nat
  infraNodes : Nat
  lanNodes : Nat
  stopTime : Nat
  useCourseChangeCallback : Bool
  packetSize : Nat
  deriving DecidableEq, Repr

/-- The initial values of the locals of `main2.cc` (lines 41-47). -/
def init2 : Locals2 where
  backboneNodes := 10
  infraNodes := 2
  lanNodes := 2
  stopTime := 20
  useCourseChangeCallback := false
  packetSize := 1000

/-- The effect of `cmd.Parse` in `main2.cc` (line 72): every registered
variable for which an option is given takes the given value. -/
def cmdParse2 (argv : Argv2) (l : Locals2) : Locals2 where
  backboneNodes := argv.backboneNodes.getD l.backboneNodes
  infraNodes := argv.infraNodes.getD l.infraNodes
  lanNodes := argv.lanNodes.getD l.lanNodes
  stopTime := argv.stopTime.getD l.stopTime
  useCourseChangeCallback := argv.useCourseChangeCallback.getD l.useCourseChangeCallback
  packetSize := l.packetSize

/-- Lines 53-72 of `main2.cc`: defaults, option registration, parsing. -/
def prelude2 : List Action :=
  [ .setDefault "ns3::OnOffApplication::PacketSize" "1472",
    .setDefault "ns3::OnOffApplication::DataRate" "100kb/s",
    .addValue "backboneNodes", .addValue "infraNodes", .addValue "lanNodes",
    .addValue "stopTime", .addValue "useCourseChangeCallback",
    .parse ]

/-- The message printed by the stop-time check (line 76). -/
def stopTimeMessage : String := "Use a simulation stop time >= 10 seconds"

/-- Lines 89-141 of `main2.cc`: construction of the backbone. -/
def constructBackbone (l : Locals2) : List Action :=
  [ .createNodes "backbone" l.backboneNodes,
    .configure "mac" "Type" "ns3::AdhocWifiMac",
    .configure "wifi" "RemoteStationManager" "OfdmRate54Mbps",
    .configure "wifiPhy" "PcapDataLinkType" "DLT_IEEE802_11_RADIO",
    .configure "wifiPhy" "Channel" "",
    .installWifi "backbone",
    .configure "internet" "RoutingHelper" "olsr",
    .installInternet "backbone",
    .setBase "192.168.0.0" "255.255.255.0",
    .assignAddresses "backboneDevices",
    .configure "mobility" "PositionAllocator" "ns3::GridPositionAllocator",
    .configure "mobility" "MobilityModel" "ns3::RandomDirection2dMobilityModel",
    .installMobility "backbone" ]

/-- One iteration of the LAN loop of `main2.cc` (lines 156-211) for loop
variable `i`. -/
def lanBody (l : Locals2) (i : Nat) : List Action :=
  [ .createNodes "stas" (sub32 l.infraNodes 1),
    .configure "macInfra" "Type" "ns3::AdhocWifiMac",
    .configure "wifiInfra" "RemoteStationManager" "OfdmRate54Mbps",
    .configure "wifiPhyInfra" "PcapDataLinkType" "DLT_IEEE802_11_RADIO",
    .configure "wifiPhyInfra" "Channel" "",
    .installWifi "stas",
    .installInternet "stas",
    .assignAddresses "lanDevices",
    .newNetwork,
    .pushReferenceMobilityModel i,
    .configure "mobility" "PositionAllocator" "ns3::GridPositionAllocator",
    .configure "mobility" "MobilityModel" "ns3::RandomDirection2dMobilityModel",
    .installMobility "stas" ]

/-- The LAN loop of `main2.cc` (lines 154-212), with `remaining` iterations
left and loop variable `i`. -/
def lanLoop (l : Locals2) : (remaining : Nat) → (i : Nat) → List Action
  | 0, _ => []
  | k + 1, i => lanBody l i ++ lanLoop l k (i + 1)

/-- Lines 151-212 of `main2.cc`: construction of the LANs. -/
def constructLans (l : Locals2) : List Action :=
  .setBase "172.16.0.0" "255.255.255.0" :: lanLoop l l.backboneNodes 0

/-- The value of `lastNodeIndex` (line 236 of `main2.cc`). -/
def lastNodeIndex (l : Locals2) : Nat :=
  sub32 (add32 l.backboneNodes (mul32 l.backboneNodes (sub32 l.infraNodes 1))) 1

/-- The condition of the `NS_ASSERT` on line 231 of `main2.cc`. -/
def nodeCountAssertion (l : Locals2) : Bool :=
  decide (l.lanNodes > 1) && decide (l.infraNodes > 1)

/-- Lines 232-303 of `main2.cc`: applications, animation, simulation. -/
def applications2 (l : Locals2) : List Action :=
  [ .configure "interPacketIntervalStream" "Mean" "1.0 / meanPacketsPerSecond",
    .configure "onoff" "OnTime" "ConstantRandomVariable",
    .configure "onoff" "OffTime" "ExponentialRandomVariable",
    .setPacketSize l.packetSize,
    .configure "onoff" "DataRate" "50Mbps",
    .installOnOff l.backboneNodes,
    .appStart 3,
    .appStop (sub32 l.stopTime 1),
    .installPacketSink "ns3::UdpSocketFactory" (lastNodeIndex l),
    .appStart 3 ]
  ++ (if l.useCourseChangeCallback = true then [.connectCourseChange] else [])
  ++ [ .animationInterface "uno.xml",
       .simulatorStop l.stopTime,
       .simulatorRun,
       .simulatorDestroy ]

/-- The function `main` of `src/main2.cc`.  `NS_ASSERT` is a framework
construct that checks its condition only in builds that define
`NS3_ASSERT_ENABLE` (the default, debug, build profile) and then aborts the
process when the condition is false; `assertEnable` says whether the build
defines it. -/
def main2 (assertEnable : Bool) (argv : Argv2) : Run :=
  let l := cmdParse2 argv init2
  -- lines 74-78
  if l.stopTime < 10 then
    { trace := prelude2 ++ [.cout stopTimeMessage], outcome := .exited 1 }
  else
    let topology := prelude2 ++ constructBackbone l ++ constructLans l
    -- line 231
    if assertEnable && !nodeCountAssertion l then
      { trace := topology, outcome := .assertFailed }
    else
      { trace := topology ++ applications2 l, outcome := .returned 0 }

/-! ## Concrete command lines used below -/

/-- The command line with no option given. -/
def noOptions1 : Argv1 := {}

/-- The command line of the header comment of `main.cc`:
`taller1 --sourceNode=20 --sinkNode=10`. -/
def headerExample1 : Argv1 := { sourceNode := some 20, sinkNode := some 10 }

/-- The command line `main2 --stopTime=5`. -/
def shortStop2 : Argv2 := { stopTime := some 5 }

/-- The command line `main2 --lanNodes=1`. -/
def oneLanNode2 : Argv2 := { lanNodes := some 1 }

/-- The command line `main2 --backboneNodes=3 --infraNodes=4`. -/
def smallTopology2 : Argv2 := { backboneNodes := some 3, infraNodes := some 4 }

/-! ## Lemmas on the loops and on `uint32_t` arithmetic -/

theorem sub32_of_le {a b : Nat} (ha : a < UINT32) (hb : b ≤ a) : sub32 a b = a - b := by
  simp only [sub32, UINT32] at *
  omega

theorem add32_of_lt {a b : Nat} (h : a + b < UINT32) : add32 a b = a + b := by
  simp only [add32]
  exact Nat.mod_eq_of_lt h

theorem mul32_of_lt {a b : Nat} (h : a * b < UINT32) : mul32 a b = a * b := by
  simp only [mul32]
  exact Nat.mod_eq_of_lt h

theorem artifacts_append (s t : List Action) :
    artifacts (s ++ t) = artifacts s ++ artifacts t := by
  simp [artifacts]

theorem artifacts_positionLoop (k i : Nat) : artifacts (positionLoop k i) = [] := by
  induction k generalizing i with
  | zero => rfl
  | succ k ih => simp [positionLoop, artifacts, Action.artifact] at ih ⊢; exact ih (i + 1)

theorem artifacts_lanLoop (l : Locals2) (k i : Nat) : artifacts (lanLoop l k i) = [] := by
  induction k generalizing i with
  | zero => rfl
  | succ k ih =>
    rw [lanLoop, artifacts_append, ih]
    simp [lanBody, artifacts, Action.artifact]

theorem sinkNodes_positionLoop (k i : Nat) : sinkNodes (positionLoop k i) = [] := by
  induction k generalizing i with
  | zero => rfl
  | succ k ih => simp [positionLoop, sinkNodes] at ih ⊢; exact ih (i + 1)

theorem sourceNodes_positionLoop (k i : Nat) : sourceNodes (positionLoop k i) = [] := by
  induction k generalizing i with
  | zero => rfl
  | succ k ih => simp [positionLoop, sourceNodes] at ih ⊢; exact ih (i + 1)

theorem nodesCreated_append (s t : List Action) :
    nodesCreated (s ++ t) = nodesCreated s + nodesCreated t := by
  induction s with
  | nil => simp [nodesCreated]
  | cons a s ih => simp [nodesCreated, ih, Nat.add_assoc]

theorem nodesCreated_lanBody (l : Locals2) (i : Nat) :
    nodesCreated (lanBody l i) = sub32 l.infraNodes 1 := rfl

theorem nodesCreated_lanLoop (l : Locals2) (k i : Nat) :
    nodesCreated (lanLoop l k i) = k * sub32 l.infraNodes 1 := by
  induction k generalizing i with
  | zero => simp [lanLoop, nodesCreated]
  | succ k ih =>
    rw [lanLoop, nodesCreated_append, ih, nodesCreated_lanBody, Nat.succ_mul, Nat.add_comm]

theorem cout_not_mem_lanLoop (l : Locals2) (m : String) (k i : Nat) :
    Action.cout m ∉ lanLoop l k i := by
  induction k generalizing i with
  | zero => simp [lanLoop]
  | succ k ih =>
    rw [lanLoop, List.mem_append]
    intro h
    rcases h with h | h
    · simp [lanBody] at h
    · exact ih (i + 1) h

theorem cout_not_mem_applications2 (l : Locals2) (m : String) :
    Action.cout m ∉ applications2 l := by
  unfold applications2
  cases l.useCourseChangeCallback <;> simp

theorem cout_not_mem_topology (l : Locals2) (m : String) :
    Action.cout m ∉ prelude2 ++ constructBackbone l ++ constructLans l := by
  simp [prelude2, constructBackbone, constructLans, cout_not_mem_lanLoop]

theorem sinkNodes_append (s t : List Action) :
    sinkNodes (s ++ t) = sinkNodes s ++ sinkNodes t := by
  simp [sinkNodes]

theorem sourceNodes_append (s t : List Action) :
    sourceNodes (s ++ t) = sourceNodes s ++ sourceNodes t := by
  simp [sourceNodes]

theorem sinkNodes_lanLoop (l : Locals2) (k i : Nat) : sinkNodes (lanLoop l k i) = [] := by
  induction k generalizing i with
  | zero => rfl
  | succ k ih =>
    rw [lanLoop, sinkNodes_append, ih]
    simp [lanBody, sinkNodes]

theorem nodesCreated_topology (l : Locals2) :
    nodesCreated (prelude2 ++ constructBackbone l ++ constructLans l)
      = l.backboneNodes + l.backboneNodes * sub32 l.infraNodes 1 := by
  rw [nodesCreated_append, nodesCreated_append, constructLans]
  have h1 : nodesCreated prelude2 = 0 := rfl
  have h2 : nodesCreated (constructBackbone l) = l.backboneNodes := rfl
  have h3 : ∀ t, nodesCreated (Action.setBase "172.16.0.0" "255.255.255.0" :: t)
      = nodesCreated t := fun t => Nat.zero_add _
  rw [h1, h2, h3, nodesCreated_lanLoop, Nat.zero_add]

theorem nodesCreated_applications2 (l : Locals2) : nodesCreated (applications2 l) = 0 := by
  unfold applications2
  cases l.useCourseChangeCallback <;> rfl

theorem sinkNodes_applications2 (l : Locals2) :
    sinkNodes (applications2 l) = [lastNodeIndex l] := by
  unfold applications2
  cases l.useCourseChangeCallback <;> rfl

theorem sinkNodes_topology (l : Locals2) :
    sinkNodes (prelude2 ++ constructBackbone l ++ constructLans l) = [] := by
  rw [sinkNodes_append, sinkNodes_append, constructLans]
  have h1 : sinkNodes prelude2 = [] := rfl
  have h2 : sinkNodes (constructBackbone l) = [] := rfl
  have h3 : ∀ t, sinkNodes (Action.setBase "172.16.0.0" "255.255.255.0" :: t)
      = sinkNodes t := fun _ => rfl
  rw [h1, h2, h3, sinkNodes_lanLoop]
  rfl

theorem lastNodeIndex_eq {l : Locals2} (hb : 1 ≤ l.backboneNodes) (hi : 2 ≤ l.infraNodes)
    (hlt : l.backboneNodes * l.infraNodes < 2 ^ 32) :
    sub32 l.infraNodes 1 = l.infraNodes - 1 ∧
    lastNodeIndex l = l.backboneNodes * l.infraNodes - 1 := by
  have hmul : l.backboneNodes * l.infraNodes
      = l.backboneNodes + l.backboneNodes * (l.infraNodes - 1) := by
    obtain ⟨j, hj⟩ : ∃ j, l.infraNodes = j + 1 := ⟨l.infraNodes - 1, by omega⟩
    rw [hj, Nat.add_sub_cancel, Nat.mul_succ, Nat.add_comm]
  have hile : l.infraNodes ≤ l.backboneNodes * l.infraNodes :=
    Nat.le_mul_of_pos_left _ hb
  have hU : UINT32 = 2 ^ 32 := rfl
  have hs : sub32 l.infraNodes 1 = l.infraNodes - 1 :=
    sub32_of_le (by rw [hU]; omega) (by omega)
  refine ⟨hs, ?_⟩
  unfold lastNodeIndex
  rw [hs, mul32_of_lt (by rw [hU]; omega), add32_of_lt (by rw [hU]; omega), ← hmul]
  exact sub32_of_le (by rw [hU]; omega) (by omega)

theorem main2_trace_of_returned {assertEnable : Bool} {argv : Argv2}
    (hret : (main2 assertEnable argv).outcome = .returned 0) :
    (main2 assertEnable argv).trace
      = prelude2 ++ constructBackbone (cmdParse2 argv init2)
        ++ constructLans (cmdParse2 argv init2)
        ++ applications2 (cmdParse2 argv init2) := by
  by_cases h : (cmdParse2 argv init2).stopTime < 10
  · simp only [main2, if_pos h] at hret
    cases hret
  · by_cases hc : (assertEnable && !nodeCountAssertion (cmdParse2 argv init2)) = true
    · simp only [main2, if_neg h, if_pos hc] at hret
      cases hret
    · simp only [main2, if_neg h, if_neg hc]

/-! ## The claims -/

/-- C1: in `main2.cc`, when the parsed `stopTime` is below 10 the script
prints "Use a simulation stop time >= 10 seconds" and calls `exit (1)`, and
its whole trace is the option handling followed by that message, so nothing
that creates a node, device or application has run; when `stopTime` is at
least 10 the script does not exit, prints no message, and goes on to create
the backbone nodes. -/
theorem main2_stopTime_check (assertEnable : Bool) (argv : Argv2) :
    ((cmdParse2 argv init2).stopTime < 10 →
      (main2 assertEnable argv).outcome = .exited 1 ∧
      (main2 assertEnable argv).trace
        = prelude2 ++ [.cout "Use a simulation stop time >= 10 seconds"] ∧
      ∀ a ∈ (main2 assertEnable argv).trace, a.creates = false) ∧
    (10 ≤ (cmdParse2 argv init2).stopTime →
      (∀ s, (main2 assertEnable argv).outcome ≠ .exited s) ∧
      (∀ m, Action.cout m ∉ (main2 assertEnable argv).trace) ∧
      Action.createNodes "backbone" (cmdParse2 argv init2).backboneNodes
        ∈ (main2 assertEnable argv).trace) := by
  constructor
  · intro h
    have hrun : main2 assertEnable argv
        = ⟨prelude2 ++ [.cout stopTimeMessage], .exited 1⟩ := by
      simp only [main2, if_pos h]
    rw [hrun]
    exact ⟨rfl, rfl, by decide⟩
  · intro h
    have hlt : ¬ (cmdParse2 argv init2).stopTime < 10 := Nat.not_lt.mpr h
    by_cases hc : (assertEnable && !nodeCountAssertion (cmdParse2 argv init2)) = true
    · have hrun : main2 assertEnable argv
          = ⟨prelude2 ++ constructBackbone (cmdParse2 argv init2)
              ++ constructLans (cmdParse2 argv init2), .assertFailed⟩ := by
        simp only [main2, if_neg hlt, if_pos hc]
      rw [hrun]
      refine ⟨fun s => by simp, fun m => cout_not_mem_topology _ m, ?_⟩
      simp [constructBackbone]
    · have hrun : main2 assertEnable argv
          = ⟨prelude2 ++ constructBackbone (cmdParse2 argv init2)
              ++ constructLans (cmdParse2 argv init2)
              ++ applications2 (cmdParse2 argv init2), .returned 0⟩ := by
        simp only [main2, if_neg hlt, if_neg hc]
      rw [hrun]
      refine ⟨fun s => by simp, fun m => ?_, ?_⟩
      · intro hm
        rcases List.mem_append.mp hm with hm | hm
        · exact cout_not_mem_topology _ m hm
        · exact cout_not_mem_applications2 _ m hm
      · simp [constructBackbone]

/-- Witness for C1: with `--stopTime=5` the script exits with status 1 right
after the message. -/
theorem main2_stopTime_check_witness :
    (main2 true shortStop2).outcome = .exited 1 ∧
    (main2 true shortStop2).trace
      = prelude2 ++ [.cout "Use a simulation stop time >= 10 seconds"] ∧
    ∀ a ∈ (main2 true shortStop2).trace, a.creates = false :=
  (main2_stopTime_check true shortStop2).1 (by decide)

/-- C2 as stated fails: with `--lanNodes=1` and the default `stopTime` of
20 (at least 10), a build with `NS_ASSERT` enabled aborts on the assertion
of line 231 instead of running to completion. -/
theorem main2_assert_counterexample :
    10 ≤ (cmdParse2 oneLanNode2 init2).stopTime ∧
    (main2 true oneLanNode2).outcome = .assertFailed ∧
    (main2 true oneLanNode2).outcome ≠ .returned 0 ∧
    (main2 true oneLanNode2).outcome.stoppedByCheck = true := by
  decide

/-- C2, amended: the explicit checks of the parameters are the stop-time
check and the `NS_ASSERT (lanNodes > 1 && infraNodes > 1)` of `main2.cc`.
For every parameter combination of `main2.cc` with `stopTime >= 10` and, in
a build that enables `NS_ASSERT`, `lanNodes > 1` and `infraNodes > 1`
(whatever `backboneNodes` is), and for every parameter combination of
`main.cc`, no explicit check in the script rejects the input or terminates
the run. -/
theorem explicit_checks (assertEnable : Bool) (argv2 : Argv2) (argv1 : Argv1) :
    (10 ≤ (cmdParse2 argv2 init2).stopTime →
      (assertEnable = true →
        1 < (cmdParse2 argv2 init2).lanNodes ∧ 1 < (cmdParse2 argv2 init2).infraNodes) →
      (main2 assertEnable argv2).outcome.stoppedByCheck = false) ∧
    (main argv1).outcome.stoppedByCheck = false := by
  refine ⟨fun hstop hassert => ?_, rfl⟩
  have h : ¬ (cmdParse2 argv2 init2).stopTime < 10 := Nat.not_lt.mpr hstop
  have hc : ¬ (assertEnable && !nodeCountAssertion (cmdParse2 argv2 init2)) = true := by
    intro hc
    simp only [nodeCountAssertion, Bool.and_eq_true, Bool.not_eq_true_eq_eq_false,
      Bool.and_eq_false_imp, decide_eq_true_eq, decide_eq_false_iff_not] at hc
    have hboth := hassert hc.1
    exact hc.2 hboth.1 hboth.2
  have hrun : (main2 assertEnable argv2).outcome = .returned 0 := by
    simp only [main2, if_neg h, if_neg hc]
  rw [hrun]
  rfl

/-- Witness for C2 (amended): with no option given, no explicit check stops
either script, also in a build that enables `NS_ASSERT`. -/
theorem explicit_checks_witness :
    (main2 true {}).outcome.stoppedByCheck = false ∧
    (main {}).outcome.stoppedByCheck = false :=
  ⟨(explicit_checks true {} {}).1 (by decide) (fun _ => by decide),
   (explicit_checks true {} {}).2⟩

/-- C3: `main.cc` installs the packet sink on node 1 whatever `sinkNode`
is, while the sender follows `sourceNode`.  On the command line of the
header comment, `--sourceNode=20 --sinkNode=10`, the parsed `sinkNode` is 10
and the sender is on node 20, yet the only packet sink is on node 1. -/
theorem main_sink_always_node_one :
    (∀ argv : Argv1, sinkNodes (main argv).trace = [1] ∧
      sourceNodes (main argv).trace = [(cmdParse1 argv init1).sourceNode]) ∧
    (cmdParse1 headerExample1 init1).sinkNode = 10 ∧
    sinkNodes (main headerExample1).trace = [1] ∧
    sourceNodes (main headerExample1).trace = [20] ∧
    (cmdParse1 noOptions1 init1).sinkNode = 0 := by
  refine ⟨fun argv => ?_, by decide, by decide, by decide, by decide⟩
  generalize hl : cmdParse1 argv init1 = l
  obtain ⟨phy, ps, np, nn, sk, src, verbose, tracing⟩ := l
  constructor
  · simp only [main, hl, sinkNodes_append, sinkNodes_positionLoop]
    cases verbose <;> cases tracing <;> rfl
  · simp only [main, hl, sourceNodes_append, sourceNodes_positionLoop]
    cases verbose <;> cases tracing <;> rfl

/-- C4: with no option given, the `tracing` flag of `main.cc` is `true`
(line 137 initialises it so), and the run requests every trace output of
the tracing block. -/
theorem main_tracing_default_on :
    (cmdParse1 noOptions1 init1).tracing = true ∧
    artifacts (main noOptions1).trace =
      [ (.asciiTrace, "taller1.tr"), (.pcapCapture, "taller1"),
        (.routingTable, "taller1.routes"), (.neighborCache, "taller1.neighbors"),
        (.mobilityTrace, "taller1.mob"),
        (.animation, "taller1.xml"), (.flowStatistics, "third.xml") ] := by
  decide

/-- C5: for every command line, `main.cc` requests the animation file
`taller1.xml` and the flow-statistics file `third.xml`, preceded by the five
trace outputs (`taller1.tr`, captures named `taller1`, `taller1.routes`,
`taller1.neighbors`, `taller1.mob`) exactly when `tracing` is true, and
nothing else; `main2.cc`, on every run that is not stopped by one of its
checks, requests exactly the animation file `uno.xml`. -/
theorem requested_artifacts (argv1 : Argv1) (assertEnable : Bool) (argv2 : Argv2) :
    artifacts (main argv1).trace =
      (if (cmdParse1 argv1 init1).tracing = true then
        [ (.asciiTrace, "taller1.tr"), (.pcapCapture, "taller1"),
          (.routingTable, "taller1.routes"), (.neighborCache, "taller1.neighbors"),
          (.mobilityTrace, "taller1.mob") ]
       else [])
      ++ [(.animation, "taller1.xml"), (.flowStatistics, "third.xml")] ∧
    ((main2 assertEnable argv2).outcome = .returned 0 →
      artifacts (main2 assertEnable argv2).trace = [(.animation, "uno.xml")]) := by
  constructor
  · generalize hl : cmdParse1 argv1 init1 = l
    obtain ⟨phy, ps, np, nn, sk, src, verbose, tracing⟩ := l
    simp only [main, hl, artifacts_append, artifacts_positionLoop]
    cases verbose <;> cases tracing <;> rfl
  · intro hret
    rw [main2_trace_of_returned hret, artifacts_append, artifacts_append, artifacts_append,
      constructLans]
    have h3 : ∀ t, artifacts (Action.setBase "172.16.0.0" "255.255.255.0" :: t)
        = artifacts t := fun _ => rfl
    rw [h3, artifacts_lanLoop]
    unfold applications2
    cases (cmdParse2 argv2 init2).useCourseChangeCallback <;> rfl

/-- Witness for C5: the default run of `main2.cc` completes and requests
only `uno.xml`. -/
theorem requested_artifacts_witness :
    artifacts (main2 true {}).trace = [(.animation, "uno.xml")] :=
  (requested_artifacts {} true {}).2 (by decide)

/-- C6: in `main2.cc`, when `backboneNodes >= 1`, `infraNodes >= 2` and
`backboneNodes * infraNodes < 2 ^ 32`, the topology code (the backbone and
the LAN loop) creates `backboneNodes * infraNodes` nodes in total, and
`lastNodeIndex` is that total minus 1; every run that passes the stop-time
check has created exactly that many nodes, and a run that completes has its
only packet sink on node `backboneNodes * infraNodes - 1`. -/
theorem main2_lastNodeIndex (assertEnable : Bool) (argv : Argv2) (l : Locals2)
    (hl : cmdParse2 argv init2 = l)
    (hb : 1 ≤ l.backboneNodes) (hi : 2 ≤ l.infraNodes)
    (hlt : l.backboneNodes * l.infraNodes < 2 ^ 32) :
    nodesCreated (constructBackbone l ++ constructLans l)
      = l.backboneNodes * l.infraNodes ∧
    lastNodeIndex l = l.backboneNodes * l.infraNodes - 1 ∧
    (10 ≤ l.stopTime →
      nodesCreated (main2 assertEnable argv).trace = l.backboneNodes * l.infraNodes) ∧
    ((main2 assertEnable argv).outcome = .returned 0 →
      sinkNodes (main2 assertEnable argv).trace = [l.backboneNodes * l.infraNodes - 1]) := by
  obtain ⟨hs, hlast⟩ := lastNodeIndex_eq hb hi hlt
  have hmul : l.backboneNodes + l.backboneNodes * (l.infraNodes - 1)
      = l.backboneNodes * l.infraNodes := by
    obtain ⟨j, hj⟩ : ∃ j, l.infraNodes = j + 1 := ⟨l.infraNodes - 1, by omega⟩
    rw [hj, Nat.add_sub_cancel, Nat.mul_succ, Nat.add_comm]
  have htop : nodesCreated (prelude2 ++ constructBackbone l ++ constructLans l)
      = l.backboneNodes * l.infraNodes := by
    rw [nodesCreated_topology, hs, hmul]
  refine ⟨?_, hlast, ?_, ?_⟩
  · have h1 : nodesCreated prelude2 = 0 := rfl
    rw [List.append_assoc, nodesCreated_append, h1, Nat.zero_add] at htop
    exact htop
  · intro hstop
    have hnot : ¬ (cmdParse2 argv init2).stopTime < 10 := by rw [hl]; omega
    by_cases hc : (assertEnable && !nodeCountAssertion (cmdParse2 argv init2)) = true
    · have hrun : (main2 assertEnable argv).trace
          = prelude2 ++ constructBackbone (cmdParse2 argv init2)
            ++ constructLans (cmdParse2 argv init2) := by
        simp only [main2, if_neg hnot, if_pos hc]
      rw [hrun, hl, htop]
    · have hrun : (main2 assertEnable argv).trace
          = prelude2 ++ constructBackbone (cmdParse2 argv init2)
            ++ constructLans (cmdParse2 argv init2)
            ++ applications2 (cmdParse2 argv init2) := by
        simp only [main2, if_neg hnot, if_neg hc]
      rw [hrun, hl, nodesCreated_append, htop, nodesCreated_applications2, Nat.add_zero]
  · intro hret
    rw [main2_trace_of_returned hret, hl, sinkNodes_append, sinkNodes_topology,
      sinkNodes_applications2, hlast]
    rfl

/-- Witness for C6: `--backboneNodes=3 --infraNodes=4` creates 12 nodes and
puts the sink on node 11. -/
theorem main2_lastNodeIndex_witness :
    nodesCreated (constructBackbone (cmdParse2 smallTopology2 init2)
      ++ constructLans (cmdParse2 smallTopology2 init2)) = 12 ∧
    lastNodeIndex (cmdParse2 smallTopology2 init2) = 11 ∧
    nodesCreated (main2 true smallTopology2).trace = 12 ∧
    sinkNodes (main2 true smallTopology2).trace = [11] :=
  have h := main2_lastNodeIndex true smallTopology2 (cmdParse2 smallTopology2 init2) rfl
    (by decide) (by decide) (by decide)
  ⟨h.1, h.2.1, h.2.2.1 (by decide), h.2.2.2 (by decide)⟩

end Taller1
